import Mathlib

/-!
Shallow embedding of the MixingPipesandChannels calculation engine
(`calculateMixing` in the calculations module) and of the retry wrapper of
the AI collaborator module (`callWithRetry`, `getAIRecommendations`,
`extractGuideData`), together with theorems settling the specification
claims about them.

JavaScript numbers are modelled by real numbers; the JavaScript `x || y`
fallback on numbers (which substitutes `y` exactly when `x` is `0`) is
modelled by the explicit operation `jsOr`.
-/

noncomputable section

open Real

inductive ConduitType where
  | PIPE
  | CHANNEL
deriving DecidableEq

inductive ConduitShape where
  | CIRCULAR
  | RECTANGULAR
deriving DecidableEq

inductive MixerModel where
  | NONE
  | KENICS_KM
  | HEV
  | STM
deriving DecidableEq

inductive InjectionType where
  | SINGLE
  | TWIN
deriving DecidableEq

/-- Pitch-ratio enum from the types module (not present under src/); only the
member used by the application is modelled.  It is never read by the engine. -/
inductive PitchRatio where
  | PR_1_5
deriving DecidableEq

/-- Momentum-regime label produced by the engine (a string in the source). -/
inductive MomentumRegime where
  | Low
  | High
  | Intermediate
deriving DecidableEq

structure MixingInputs where
  conduitType : ConduitType
  conduitShape : ConduitShape
  mixerModel : MixerModel
  injectionType : InjectionType
  pitchRatio : PitchRatio
  flowRate : ℝ
  dimension : ℝ
  depth : ℝ
  availableLength : ℝ
  viscosity : ℝ
  density : ℝ
  chemicalFlow : ℝ
  chemicalDensity : ℝ
  chemicalViscosity : ℝ
  dilutionWaterFlow : ℝ
  numElements : ℝ
  targetCoV : ℝ
  targetMixingTime : ℝ
  waterTemperature : ℝ
  chemicalDose : ℝ
  chemicalType : String

structure CalculationResults where
  velocity : ℝ
  reynoldsNumber : ℝ
  momentumRatio : ℝ
  momentumRegime : MomentumRegime
  mixerCoV : ℝ
  viscosityRatio : ℝ
  injectedViscosity : ℝ
  injectedDensity : ℝ
  totalInjectionFlow : ℝ
  isCompliant : Bool
  isTimeCompliant : Bool
  mixingDistanceNeeded : ℝ
  mixingTimeNeeded : ℝ
  headloss : ℝ
  headlossMeters : ℝ
  gValue : ℝ
  limeSaturationLimit : ℝ
  dissolvedAtTarget : ℝ
  timeTo95Dissolution : ℝ
  distanceTo95Dissolution : ℝ
  suggestedOrificeDiameter : ℝ
  manufacturerNotes : String
  hydraulicDiameter : ℝ
  wettedArea : ℝ

/-- JavaScript `x || y` on numbers: yields `y` exactly when `x = 0`. -/
def jsOr (x y : ℝ) : ℝ := if x = 0 then y else x

namespace Mixing

/-- Gravitational acceleration constant `g = 9.81` from the source. -/
def grav : ℝ := 9.81

def waterDensity : ℝ := 1000

def waterViscosity : ℝ := 0.001

variable (I : MixingInputs)

/-- `const d = Math.max(dimension || 0.001, 0.001)`. -/
def d : ℝ := max (jsOr I.dimension 0.001) 0.001

/-- `const h = Math.max(depth || 0.001, 0.001)`. -/
def h : ℝ := max (jsOr I.depth 0.001) 0.001

/-- `const Q_m3h = Math.max(flowRate || 1, 1)`. -/
def Q_m3h : ℝ := max (jsOr I.flowRate 1) 1

/-- `const totalInjLh = (chemicalFlow || 0) + (dilutionWaterFlow || 0)`. -/
def totalInjLh : ℝ := jsOr I.chemicalFlow 0 + jsOr I.dilutionWaterFlow 0

/-- `const totalInjM3s = totalInjLh / 3600000`. -/
def totalInjM3s : ℝ := totalInjLh I / 3600000

/-- `const injDensity = (((chemicalFlow || 0) * (chemicalDensity || 1000)) +
((dilutionWaterFlow || 0) * waterDensity)) / (totalInjLh || 1)`. -/
def injDensity : ℝ :=
  (jsOr I.chemicalFlow 0 * jsOr I.chemicalDensity 1000 +
    jsOr I.dilutionWaterFlow 0 * waterDensity) / jsOr (totalInjLh I) 1

/-- `const injVisc = Math.exp(((chemicalFlow || 0) * Math.log(chemicalViscosity
|| 1e-6) + (dilutionWaterFlow || 0) * Math.log(waterViscosity || 1e-6)) /
(totalInjLh || 1))`. -/
def injVisc : ℝ :=
  Real.exp ((jsOr I.chemicalFlow 0 * Real.log (jsOr I.chemicalViscosity 1e-6) +
    jsOr I.dilutionWaterFlow 0 * Real.log (jsOr waterViscosity 1e-6)) /
      jsOr (totalInjLh I) 1)

/-- Cross-sectional area from the geometry branch of `calculateMixing`. -/
def area : ℝ :=
  if I.conduitType = ConduitType.PIPE then
    if I.conduitShape = ConduitShape.CIRCULAR then Real.pi * (d I / 2) ^ 2
    else d I * h I
  else d I * h I

/-- Hydraulic diameter from the geometry branch of `calculateMixing`. -/
def Dh : ℝ :=
  if I.conduitType = ConduitType.PIPE then
    if I.conduitShape = ConduitShape.CIRCULAR then d I
    else 2 * d I * h I / (d I + h I)
  else 4 * (d I * h I) / (d I + 2 * h I)

/-- Denominator of the velocity computation: `(area || 1e-6)`. -/
def velocityDivisor : ℝ := jsOr (area I) 1e-6

/-- `const velocity = (Q_m3h / 3600) / (area || 1e-6)`. -/
def velocity : ℝ := Q_m3h I / 3600 / velocityDivisor I

/-- Denominator of the Reynolds-number computation: `(viscosity || 1e-6)`. -/
def reDivisor : ℝ := jsOr I.viscosity 1e-6

/-- `const Re = (density * velocity * Dh) / (viscosity || 1e-6)`. -/
def Re : ℝ := I.density * velocity I * Dh I / reDivisor I

/-- Denominator of the dilution ratio: `(totalInjLh || 1)`. -/
def alphaDivisor : ℝ := jsOr (totalInjLh I) 1

/-- `const alpha = (Q_m3h * 1000) / (totalInjLh || 1)`. -/
def alpha : ℝ := Q_m3h I * 1000 / alphaDivisor I

/-- `const LD = (availableLength || 1) / Dh`. -/
def LD : ℝ := jsOr I.availableLength 1 / Dh I

/-- Friction factor set in the `switch (mixerModel)` statement. -/
def FD : ℝ :=
  match I.mixerModel with
  | MixerModel.KENICS_KM => 1.8
  | MixerModel.HEV => 0.6
  | MixerModel.STM => 4.15
  | MixerModel.NONE => 0.02

/-- Effective mixing length set in the `switch (mixerModel)` statement. -/
def Lm : ℝ :=
  match I.mixerModel with
  | MixerModel.KENICS_KM => I.numElements * 1.5 * Dh I
  | MixerModel.HEV => I.numElements * Dh I
  | MixerModel.STM => I.numElements * 0.8 * Dh I
  | MixerModel.NONE => I.availableLength

/-- The mixer coefficient of variation before the clamp, per mixer model. -/
def mixerCoVRaw : ℝ :=
  match I.mixerModel with
  | MixerModel.KENICS_KM =>
      (if I.injectionType = InjectionType.SINGLE then 0.96 else 0.38) *
        Re I ^ (-0.1 : ℝ) * I.numElements ^ (-1.9 : ℝ)
  | MixerModel.HEV => 31.5 * Re I ^ (-0.2 : ℝ) * I.numElements ^ (-1.7 : ℝ)
  | MixerModel.STM => 0.29 * Re I ^ (-0.2 : ℝ) * I.numElements ^ (-0.6 : ℝ)
  | MixerModel.NONE =>
      2 * Real.sqrt (alpha I) * Real.exp (-0.75 * Real.sqrt 0.02 * LD I)

/-- `mixerCoV = Math.min(1.0, Math.max(0.0001, mixerCoV))`. -/
def mixerCoV : ℝ := min 1.0 (max 0.0001 (mixerCoVRaw I))

/-- `const headlossM = (FD * Lm * Math.pow(velocity, 2)) / (2 * g * Dh)`. -/
def headlossM : ℝ := FD I * Lm I * velocity I ^ 2 / (2 * grav * Dh I)

/-- `const headlossKpa = (headlossM * density * g) / 1000`. -/
def headlossKpa : ℝ := headlossM I * I.density * grav / 1000

/-- Denominator of the G-value computation: `(viscosity * area * Lm || 1e-9)`. -/
def gValueDivisor : ℝ := jsOr (I.viscosity * area I * Lm I) 1e-9

/-- `const gValue = Math.sqrt((headlossKpa * 1000 * (Q_m3h/3600)) /
(viscosity * area * Lm || 1e-9))`. -/
def gValue : ℝ :=
  Real.sqrt (headlossKpa I * 1000 * (Q_m3h I / 3600) / gValueDivisor I)

/-- `const decay = conduitType === PIPE ? 0.75 * Math.sqrt(0.02) : 0.6`. -/
def decay : ℝ :=
  if I.conduitType = ConduitType.PIPE then 0.75 * Real.sqrt 0.02 else 0.6

/-- `const tCoV = targetCoV || 0.05`. -/
def tCoV : ℝ := jsOr I.targetCoV 0.05

/-- `const mixingDistanceNeeded = mixerCoV <= tCoV ? Lm :
Lm + (Math.log(mixerCoV / tCoV) / (decay || 0.1)) * Dh`. -/
def mixingDistanceNeeded : ℝ :=
  if mixerCoV I ≤ tCoV I then Lm I
  else Lm I + Real.log (mixerCoV I / tCoV I) / jsOr (decay I) 0.1 * Dh I

/-- `const uInj = (totalInjM3s / (injectionType === TWIN ? 2 : 1)) /
(Math.PI * Math.pow(0.0125, 2))`. -/
def uInj : ℝ :=
  totalInjM3s I / (if I.injectionType = InjectionType.TWIN then 2 else 1) /
    (Real.pi * (0.0125 : ℝ) ^ 2)

/-- Denominator of the momentum-ratio computation: `(velocity * Dh || 1e-6)`. -/
def momentumDivisor : ℝ := jsOr (velocity I * Dh I) 1e-6

/-- `const momentumRatio = Math.sqrt(injDensity / density) *
(uInj * 0.025 / (velocity * Dh || 1e-6))`. -/
def momentumRatio : ℝ :=
  Real.sqrt (injDensity I / I.density) * (uInj I * 0.025 / momentumDivisor I)

/-- The regime ternary on the returned record:
`momentumRatio < 0.16 ? 'Low' : (momentumRatio > 0.24 ? 'High' : 'Intermediate')`. -/
def momentumRegimeOf (r : ℝ) : MomentumRegime :=
  if r < 0.16 then MomentumRegime.Low
  else if r > 0.24 then MomentumRegime.High
  else MomentumRegime.Intermediate

/-- Denominator of the viscosity ratio on the returned record: the raw
`viscosity` input (`viscosityRatio: injVisc / viscosity`). -/
def viscosityRatioDivisor : ℝ := I.viscosity

/-- Denominator of the mixing-time computation on the returned record
(`mixingTimeNeeded: mixingDistanceNeeded / velocity`). -/
def mixingTimeDivisor : ℝ := velocity I

end Mixing

open Mixing in
/-- The record returned by `calculateMixing`. -/
def calculateMixing (I : MixingInputs) : CalculationResults where
  velocity := velocity I
  reynoldsNumber := Re I
  momentumRatio := momentumRatio I
  momentumRegime := momentumRegimeOf (momentumRatio I)
  mixerCoV := mixerCoV I
  viscosityRatio := injVisc I / viscosityRatioDivisor I
  injectedViscosity := injVisc I
  injectedDensity := injDensity I
  totalInjectionFlow := totalInjLh I
  isCompliant := decide (mixerCoV I ≤ tCoV I)
  isTimeCompliant := decide (mixingDistanceNeeded I / velocity I ≤ I.targetMixingTime)
  mixingDistanceNeeded := mixingDistanceNeeded I
  mixingTimeNeeded := mixingDistanceNeeded I / mixingTimeDivisor I
  headloss := headlossKpa I
  headlossMeters := headlossM I
  gValue := gValue I
  limeSaturationLimit := 1500
  dissolvedAtTarget := 100
  timeTo95Dissolution := 5
  distanceTo95Dissolution := 5
  suggestedOrificeDiameter := 15
  manufacturerNotes := "Standard BHR quill recommendations."
  hydraulicDiameter := Dh I
  wettedArea := area I

/-! ## Retry wrapper of the AI collaborator module -/

/-- The shape of the caught value inspected by `callWithRetry`:
`error?.message?.includes('429') || error?.status === 429`. -/
structure JsError where
  msgHas429 : Bool
  statusIs429 : Bool
deriving DecidableEq

/-- `const isRateLimit = error?.message?.includes('429') || error?.status === 429`. -/
def isRateLimit (e : JsError) : Bool := e.msgHas429 || e.statusIs429

/-- Trace of one run of `callWithRetry`: the sleep durations performed (ms),
the number of invocations of `fn`, and the final outcome. -/
structure RetryTrace (α : Type) where
  delays : List ℕ
  attempts : ℕ
  outcome : Except JsError α

/-- The `for (let i = 0; i < maxRetries; i++)` loop of `callWithRetry`.
`i` is the current attempt index, the second argument the number of attempts
still allowed (`maxRetries - i`); a retry happens exactly when another
iteration remains (`i < maxRetries - 1`) and the failure is a rate limit, and
sleeps `Math.pow(2, i) * 1000` milliseconds. -/
def callWithRetryGo {α : Type} (f : ℕ → Except JsError α) : ℕ → ℕ → RetryTrace α
  | _, 0 => ⟨[], 0, Except.error ⟨false, false⟩⟩
  | i, rem + 1 =>
    match f i with
    | Except.ok a => ⟨[], 1, Except.ok a⟩
    | Except.error e =>
      if 0 < rem ∧ isRateLimit e then
        let t := callWithRetryGo f (i + 1) rem
        ⟨2 ^ i * 1000 :: t.delays, t.attempts + 1, t.outcome⟩
      else ⟨[], 1, Except.error e⟩

/-- `callWithRetry(fn, maxRetries)`; the attempt oracle `f` gives the outcome
of the `i`-th invocation of `fn`. -/
def callWithRetry {α : Type} (f : ℕ → Except JsError α) (maxRetries : ℕ) :
    RetryTrace α :=
  callWithRetryGo f 0 maxRetries

/-- JavaScript `s || fallback` on the response text (empty string is falsy,
standing in for an absent `text`). -/
def jsOrStr (s fallback : String) : String := if s = "" then fallback else s

/-- `getAIRecommendations`: wraps the model call in `callWithRetry` (3 attempts)
and returns a fixed fallback string when the retry loop ultimately throws. -/
def getAIRecommendations (f : ℕ → Except JsError String) : String :=
  match (callWithRetry f 3).outcome with
  | Except.ok s => jsOrStr s "No audit available."
  | Except.error _ => "Audit generation failed."

/-- `extractGuideData`: same retry wrapper, different fallbacks. -/
def extractGuideData (f : ℕ → Except JsError String) : String :=
  match (callWithRetry f 3).outcome with
  | Except.ok s => jsOrStr s "Guide synced."
  | Except.error _ => "Extraction failed."

/-! ## Concrete input records used by the scenario theorems -/

/-- The end-to-end scenario record of §8 of the spec (also the application's
initial state). -/
def I0 : MixingInputs where
  conduitType := ConduitType.PIPE
  conduitShape := ConduitShape.CIRCULAR
  mixerModel := MixerModel.NONE
  injectionType := InjectionType.SINGLE
  pitchRatio := PitchRatio.PR_1_5
  flowRate := 1500
  dimension := 0.8
  depth := 0.6
  availableLength := 10
  viscosity := 0.001
  density := 1000
  chemicalFlow := 10
  chemicalDensity := 1450
  chemicalViscosity := 0.015
  dilutionWaterFlow := 200
  numElements := 4
  targetCoV := 0.05
  targetMixingTime := 10
  waterTemperature := 15
  chemicalDose := 1
  chemicalType := "Ferric Chloride"

/-- Degenerate scenario: zero flow rate, zero dimension, zero injection flows. -/
def Idegen : MixingInputs :=
  { I0 with flowRate := 0, dimension := 0, chemicalFlow := 0, dilutionWaterFlow := 0 }

/-- Scenario with a zero carrier viscosity input. -/
def IviscZero : MixingInputs := { I0 with viscosity := 0 }

/-- Scenario with a zero chemical density and no dilution water. -/
def IchemDensZero : MixingInputs :=
  { I0 with chemicalDensity := 0, dilutionWaterFlow := 0 }

/-- Natural-mixing scenario with zero available length (circular pipe of
diameter 1 m, heavy injection flow so the raw CoV is far from both clamps). -/
def ILen0 : MixingInputs :=
  { I0 with flowRate := 1, dimension := 1, chemicalFlow := 1000000,
            dilutionWaterFlow := 0, availableLength := 0 }

/-- Same as `ILen0` but with a strictly larger available length of 0.5 m. -/
def ILenHalf : MixingInputs := { ILen0 with availableLength := 0.5 }

/-! ## Spec-worded formulas (for refinement comparison) -/

/-- Modelled from the spec: the blended-density formula exactly as §4.3 words
it — `(chemicalFlow·chemicalDensity + dilutionFlow·waterDensity) /
totalInjectionFlow`, the denominator floored to 1 when the total injection
flow is zero, with no other substitution. -/
def specInjectedDensity (I : MixingInputs) : ℝ :=
  (I.chemicalFlow * I.chemicalDensity + I.dilutionWaterFlow * 1000) /
    (if I.chemicalFlow + I.dilutionWaterFlow = 0 then 1
     else I.chemicalFlow + I.dilutionWaterFlow)

/-- Modelled from the spec: the blended-viscosity formula exactly as §4.3
words it — the exponential of the flow-weighted average of the natural logs
of `chemicalViscosity` and the water viscosity 0.001, the denominator floored
to 1 when the total injection flow is zero, with no other substitution. -/
def specInjectedViscosity (I : MixingInputs) : ℝ :=
  Real.exp ((I.chemicalFlow * Real.log I.chemicalViscosity +
      I.dilutionWaterFlow * Real.log 0.001) /
    (if I.chemicalFlow + I.dilutionWaterFlow = 0 then 1
     else I.chemicalFlow + I.dilutionWaterFlow))

/-- The blended-density formula as the code actually computes it: a zero
`chemicalDensity` input is first replaced by 1000. -/
def amendedInjectedDensity (I : MixingInputs) : ℝ :=
  (I.chemicalFlow * (if I.chemicalDensity = 0 then 1000 else I.chemicalDensity) +
      I.dilutionWaterFlow * 1000) /
    (if I.chemicalFlow + I.dilutionWaterFlow = 0 then 1
     else I.chemicalFlow + I.dilutionWaterFlow)

/-- The blended-viscosity formula as the code actually computes it: a zero
`chemicalViscosity` input is first replaced by `1e-6`. -/
def amendedInjectedViscosity (I : MixingInputs) : ℝ :=
  Real.exp ((I.chemicalFlow *
      Real.log (if I.chemicalViscosity = 0 then 1e-6 else I.chemicalViscosity) +
      I.dilutionWaterFlow * Real.log 0.001) /
    (if I.chemicalFlow + I.dilutionWaterFlow = 0 then 1
     else I.chemicalFlow + I.dilutionWaterFlow))

/-! ## Basic lemmas about `jsOr` and the always-positive intermediates -/

lemma jsOr_of_ne (x y : ℝ) (hx : x ≠ 0) : jsOr x y = x := if_neg hx

lemma jsOr_zero_left (y : ℝ) : jsOr 0 y = y := if_pos rfl

lemma jsOr_id (x : ℝ) : jsOr x 0 = x := by
  unfold jsOr; split <;> simp_all

lemma ite_zero_self (x : ℝ) : (if x = 0 then (0 : ℝ) else x) = x := by
  split <;> simp_all

lemma jsOr_ne_zero (x y : ℝ) (hy : y ≠ 0) : jsOr x y ≠ 0 := by
  unfold jsOr; split <;> simp_all

lemma jsOr_pos (x y : ℝ) (hx : 0 ≤ x) (hy : 0 < y) : 0 < jsOr x y := by
  unfold jsOr; split
  · exact hy
  · exact lt_of_le_of_ne hx (by simp_all [eq_comm])

open Mixing

lemma d_ge (I : MixingInputs) : 0.001 ≤ d I := le_max_right _ _

lemma d_pos (I : MixingInputs) : 0 < d I :=
  lt_of_lt_of_le (by norm_num) (d_ge I)

lemma h_ge (I : MixingInputs) : 0.001 ≤ h I := le_max_right _ _

lemma h_pos (I : MixingInputs) : 0 < h I :=
  lt_of_lt_of_le (by norm_num) (h_ge I)

lemma Q_ge_one (I : MixingInputs) : 1 ≤ Q_m3h I := le_max_right _ _

lemma Q_pos (I : MixingInputs) : 0 < Q_m3h I :=
  lt_of_lt_of_le one_pos (Q_ge_one I)

lemma area_pos (I : MixingInputs) : 0 < area I := by
  unfold area; split_ifs
  · exact mul_pos Real.pi_pos (pow_pos (by linarith [d_pos I]) 2)
  · exact mul_pos (d_pos I) (h_pos I)
  · exact mul_pos (d_pos I) (h_pos I)

lemma Dh_pos (I : MixingInputs) : 0 < Dh I := by
  unfold Dh; split_ifs
  · exact d_pos I
  · exact div_pos (by nlinarith [d_pos I, h_pos I]) (by linarith [d_pos I, h_pos I])
  · exact div_pos (by nlinarith [d_pos I, h_pos I]) (by linarith [d_pos I, h_pos I])

lemma velocityDivisor_eq (I : MixingInputs) : velocityDivisor I = area I :=
  jsOr_of_ne _ _ (ne_of_gt (area_pos I))

lemma velocityDivisor_pos (I : MixingInputs) : 0 < velocityDivisor I := by
  rw [velocityDivisor_eq]; exact area_pos I

lemma velocity_pos (I : MixingInputs) : 0 < velocity I :=
  div_pos (div_pos (Q_pos I) (by norm_num)) (velocityDivisor_pos I)

lemma reDivisor_ne_zero (I : MixingInputs) : reDivisor I ≠ 0 :=
  jsOr_ne_zero _ _ (by norm_num)

lemma alphaDivisor_ne_zero (I : MixingInputs) : alphaDivisor I ≠ 0 :=
  jsOr_ne_zero _ _ (by norm_num)

lemma gValueDivisor_ne_zero (I : MixingInputs) : gValueDivisor I ≠ 0 :=
  jsOr_ne_zero _ _ (by norm_num)

lemma momentumDivisor_ne_zero (I : MixingInputs) : momentumDivisor I ≠ 0 :=
  jsOr_ne_zero _ _ (by norm_num)

lemma momentumDivisor_eq (I : MixingInputs) :
    momentumDivisor I = velocity I * Dh I :=
  jsOr_of_ne _ _ (ne_of_gt (mul_pos (velocity_pos I) (Dh_pos I)))

lemma real_sqrt_le (a b : ℝ) (hb : 0 ≤ b) (hab : a ≤ b ^ 2) : Real.sqrt a ≤ b := by
  rw [show b = Real.sqrt (b ^ 2) from (Real.sqrt_sq hb).symm]
  exact Real.sqrt_le_sqrt hab

lemma real_le_sqrt (a b : ℝ) (hb : 0 ≤ b) (hab : b ^ 2 ≤ a) : b ≤ Real.sqrt a := by
  rw [show b = Real.sqrt (b ^ 2) from (Real.sqrt_sq hb).symm]
  exact Real.sqrt_le_sqrt hab

lemma sqrt002_lb : (0.1414213 : ℝ) ≤ Real.sqrt 0.02 :=
  real_le_sqrt _ _ (by norm_num) (by norm_num)

lemma sqrt002_ub : Real.sqrt 0.02 ≤ 0.1414214 :=
  real_sqrt_le _ _ (by norm_num) (by norm_num)

/-- The default (`NONE`) branch of the mixer switch, written out. -/
lemma mixerCoVRaw_none (I : MixingInputs) (hm : I.mixerModel = MixerModel.NONE) :
    mixerCoVRaw I = 2 * Real.sqrt (alpha I) *
      Real.exp (-0.75 * Real.sqrt 0.02 * (jsOr I.availableLength 1 / Dh I)) := by
  simp only [mixerCoVRaw, hm, LD]

lemma FD_pos (I : MixingInputs) : 0 < FD I := by
  cases hm : I.mixerModel <;> simp only [FD, hm] <;> norm_num

lemma Lm_nonneg (I : MixingInputs) (hL : 0 ≤ I.availableLength)
    (hn : 0 ≤ I.numElements) : 0 ≤ Lm I := by
  cases hm : I.mixerModel <;> simp only [Lm, hm]
  · exact hL
  · have := Dh_pos I; nlinarith
  · have := Dh_pos I; nlinarith
  · have := Dh_pos I; nlinarith

lemma headlossM_nonneg (I : MixingInputs) (hL : 0 ≤ I.availableLength)
    (hn : 0 ≤ I.numElements) : 0 ≤ headlossM I := by
  unfold headlossM
  apply div_nonneg
  · exact mul_nonneg (mul_nonneg (FD_pos I).le (Lm_nonneg I hL hn)) (sq_nonneg _)
  · unfold grav; nlinarith [Dh_pos I]

/-! ## Taylor bounds on the exponential, used for the numeric scenarios -/

lemma exp_taylor4_lb (x : ℝ) (hx : 0 ≤ x) :
    1 + x + x ^ 2 / 2 + x ^ 3 / 6 ≤ Real.exp x := by
  have hs := Real.sum_le_exp_of_nonneg hx 4
  simp only [Finset.sum_range_succ, Finset.sum_range_zero, Nat.factorial] at hs
  norm_num at hs
  linarith

lemma exp_taylor9_lb (x : ℝ) (hx : 0 ≤ x) :
    1 + x + x ^ 2 / 2 + x ^ 3 / 6 + x ^ 4 / 24 + x ^ 5 / 120 + x ^ 6 / 720 +
      x ^ 7 / 5040 + x ^ 8 / 40320 ≤ Real.exp x := by
  have hs := Real.sum_le_exp_of_nonneg hx 9
  simp only [Finset.sum_range_succ, Finset.sum_range_zero, Nat.factorial] at hs
  norm_num at hs
  linarith

lemma exp_taylor9_ub (x : ℝ) (h0 : 0 ≤ x) (h1 : x ≤ 1) :
    Real.exp x ≤ 1 + x + x ^ 2 / 2 + x ^ 3 / 6 + x ^ 4 / 24 + x ^ 5 / 120 +
      x ^ 6 / 720 + x ^ 7 / 5040 + x ^ 8 / 40320 + x ^ 9 * 10 / 3265920 := by
  have hs := @Real.exp_bound' x h0 h1 9 (by norm_num)
  simp only [Finset.sum_range_succ, Finset.sum_range_zero, Nat.factorial] at hs
  norm_num at hs
  linarith

/-- Decompose `exp (k + r)` for a natural `k` and bound it from above. -/
lemma exp_nat_add_ub (k : ℕ) (r B C : ℝ) (hB : Real.exp r ≤ B)
    (hC : (2.7182818286 : ℝ) ^ k * B ≤ C) : Real.exp (k + r) ≤ C := by
  have h1 : Real.exp ((k : ℝ) + r) = Real.exp 1 ^ k * Real.exp r := by
    rw [Real.exp_add]
    congr 1
    rw [← Real.exp_nat_mul]
    norm_num
  rw [h1]
  calc Real.exp 1 ^ k * Real.exp r ≤ (2.7182818286 : ℝ) ^ k * B := by
        apply mul_le_mul _ hB (Real.exp_pos r).le (by positivity)
        exact pow_le_pow_left₀ (Real.exp_pos 1).le Real.exp_one_lt_d9.le k
    _ ≤ C := hC

/-- Decompose `exp (k + r)` for a natural `k` and bound it from below. -/
lemma exp_nat_add_lb (k : ℕ) (r B C : ℝ) (hB0 : 0 ≤ B) (hB : B ≤ Real.exp r)
    (hC : C ≤ (2.7182818283 : ℝ) ^ k * B) : C ≤ Real.exp (k + r) := by
  have h1 : Real.exp ((k : ℝ) + r) = Real.exp 1 ^ k * Real.exp r := by
    rw [Real.exp_add]
    congr 1
    rw [← Real.exp_nat_mul]
    norm_num
  rw [h1]
  calc C ≤ (2.7182818283 : ℝ) ^ k * B := hC
    _ ≤ Real.exp 1 ^ k * Real.exp r :=
        mul_le_mul (pow_le_pow_left₀ (by norm_num) Real.exp_one_gt_d9.le k) hB hB0
          (by positivity)

lemma decay_pos (I : MixingInputs) : 0 < decay I := by
  unfold decay; split_ifs
  · nlinarith [sqrt002_lb]
  · norm_num

/-- Flooring of the width input: the `||` fallback and the `max` together act
as a plain floor at 0.001. -/
lemma d_eq_max (I : MixingInputs) : d I = max I.dimension 0.001 := by
  unfold Mixing.d jsOr; split
  · simp_all; norm_num
  · rfl

/-- Flooring of the depth input: same shape as `d_eq_max`. -/
lemma h_eq_max (I : MixingInputs) : h I = max I.depth 0.001 := by
  unfold Mixing.h jsOr; split
  · simp_all; norm_num
  · rfl

/-! ## Claim theorems -/

/-- C2: for every input record, the `mixerCoV` field of the result of
`calculateMixing` lies in the closed interval `[0.0001, 1]`. -/
theorem C2_mixerCoV_clamped (I : MixingInputs) :
    0.0001 ≤ (calculateMixing I).mixerCoV ∧ (calculateMixing I).mixerCoV ≤ 1 := by
  have he : (calculateMixing I).mixerCoV =
      min (1.0 : ℝ) (max 0.0001 (mixerCoVRaw I)) := rfl
  rw [he]
  constructor
  · exact le_min (by norm_num) (le_max_left _ _)
  · exact le_trans (min_le_left _ _) (by norm_num)

/-- C7: `momentumRegime` is computed from `momentumRatio` by the fixed
thresholds 0.16 and 0.24 — strictly below 0.16 is `Low`, strictly above 0.24
is `High`, everything else (both boundaries included) is `Intermediate`. -/
theorem C7_momentum_regime (I : MixingInputs) :
    (calculateMixing I).momentumRegime =
      momentumRegimeOf ((calculateMixing I).momentumRatio) ∧
    (∀ r : ℝ, r < 0.16 → momentumRegimeOf r = MomentumRegime.Low) ∧
    (∀ r : ℝ, 0.24 < r → momentumRegimeOf r = MomentumRegime.High) ∧
    (∀ r : ℝ, 0.16 ≤ r → r ≤ 0.24 → momentumRegimeOf r = MomentumRegime.Intermediate) ∧
    momentumRegimeOf 0.16 = MomentumRegime.Intermediate ∧
    momentumRegimeOf 0.24 = MomentumRegime.Intermediate := by
  refine ⟨rfl, ?_, ?_, ?_, ?_, ?_⟩
  · intro r hr; unfold momentumRegimeOf; rw [if_pos hr]
  · intro r hr; unfold momentumRegimeOf
    rw [if_neg (by linarith), if_pos (by exact hr)]
  · intro r hr1 hr2; unfold momentumRegimeOf
    rw [if_neg (by linarith), if_neg (by simp only [gt_iff_lt, not_lt]; linarith)]
  · unfold momentumRegimeOf
    rw [if_neg (by norm_num), if_neg (by norm_num)]
  · unfold momentumRegimeOf
    rw [if_neg (by norm_num), if_neg (by norm_num)]

/-- Witness for C7 at concrete ratios and a concrete input record. -/
theorem C7_momentum_regime_witness :
    momentumRegimeOf 0.1 = MomentumRegime.Low ∧
    momentumRegimeOf 0.3 = MomentumRegime.High ∧
    momentumRegimeOf 0.2 = MomentumRegime.Intermediate :=
  ⟨(C7_momentum_regime I0).2.1 0.1 (by norm_num),
   (C7_momentum_regime I0).2.2.1 0.3 (by norm_num),
   (C7_momentum_regime I0).2.2.2.1 0.2 (by norm_num) (by norm_num)⟩

/-- C8: the geometry stage — with the width and depth floored at 0.001 m,
a circular pipe gets area `π(d/2)²` and hydraulic diameter `d`, a
non-circular pipe gets area `d·h` and hydraulic diameter `2dh/(d+h)`, and a
channel gets area `d·h` and hydraulic diameter `4·area/(d+2h)`. -/
theorem C8_geometry (I : MixingInputs) :
    (I.conduitType = ConduitType.PIPE → I.conduitShape = ConduitShape.CIRCULAR →
      (calculateMixing I).wettedArea = Real.pi * (max I.dimension 0.001 / 2) ^ 2 ∧
      (calculateMixing I).hydraulicDiameter = max I.dimension 0.001) ∧
    (I.conduitType = ConduitType.PIPE → I.conduitShape ≠ ConduitShape.CIRCULAR →
      (calculateMixing I).wettedArea = max I.dimension 0.001 * max I.depth 0.001 ∧
      (calculateMixing I).hydraulicDiameter =
        2 * max I.dimension 0.001 * max I.depth 0.001 /
          (max I.dimension 0.001 + max I.depth 0.001)) ∧
    (I.conduitType = ConduitType.CHANNEL →
      (calculateMixing I).wettedArea = max I.dimension 0.001 * max I.depth 0.001 ∧
      (calculateMixing I).hydraulicDiameter =
        4 * (max I.dimension 0.001 * max I.depth 0.001) /
          (max I.dimension 0.001 + 2 * max I.depth 0.001)) := by
  refine ⟨fun ht hs => ?_, fun ht hs => ?_, fun ht => ?_⟩
  · show Mixing.area I = _ ∧ Dh I = _
    unfold Mixing.area Dh
    rw [if_pos ht, if_pos hs, if_pos ht, if_pos hs, d_eq_max]
    exact ⟨rfl, rfl⟩
  · show Mixing.area I = _ ∧ Dh I = _
    unfold Mixing.area Dh
    rw [if_pos ht, if_neg hs, if_pos ht, if_neg hs, d_eq_max, h_eq_max]
    exact ⟨rfl, rfl⟩
  · have ht' : I.conduitType ≠ ConduitType.PIPE := by rw [ht]; intro hc; cases hc
    show Mixing.area I = _ ∧ Dh I = _
    unfold Mixing.area Dh
    rw [if_neg ht', if_neg ht', d_eq_max, h_eq_max]
    exact ⟨rfl, rfl⟩

/-- Witness for C8 at the circular-pipe scenario record. -/
theorem C8_geometry_witness :
    (calculateMixing I0).wettedArea = Real.pi * (max (0.8 : ℝ) 0.001 / 2) ^ 2 ∧
    (calculateMixing I0).hydraulicDiameter = max (0.8 : ℝ) 0.001 :=
  (C8_geometry I0).1 rfl rfl

/-- C6: for every input record with nonnegative available length and element
count (the valid domain of §3), the result has nonnegative headloss and
strictly positive velocity. -/
theorem C6_headloss_velocity (I : MixingInputs)
    (hL : 0 ≤ I.availableLength) (hn : 0 ≤ I.numElements) :
    0 ≤ (calculateMixing I).headlossMeters ∧ 0 < (calculateMixing I).velocity :=
  ⟨headlossM_nonneg I hL hn, velocity_pos I⟩

/-- Witness for C6 at the end-to-end scenario record. -/
theorem C6_headloss_velocity_witness :
    0 ≤ (calculateMixing I0).headlossMeters ∧ 0 < (calculateMixing I0).velocity :=
  C6_headloss_velocity I0 (by norm_num [I0]) (by norm_num [I0])

/-- C3 counterexample: at a record whose viscosity input is zero, the divisor
actually used for `viscosityRatio` is the raw viscosity, i.e. exactly zero —
the code floors every other denominator but not this one. -/
theorem C3_counterexample :
    viscosityRatioDivisor IviscZero = 0 ∧
    (calculateMixing IviscZero).viscosityRatio = injVisc IviscZero / 0 :=
  ⟨rfl, rfl⟩

/-- C3 amended: every divisor of the engine except the one used for
`viscosityRatio` is nonzero for every input record — the velocity, Reynolds,
dilution-ratio, G-value, momentum-ratio and headloss denominators are floored
or always positive, and the mixing-time divisor (the velocity) is positive;
`viscosityRatio`, however, divides by the raw viscosity input. -/
theorem C3_divisors_amended (I : MixingInputs) :
    0 < velocityDivisor I ∧ reDivisor I ≠ 0 ∧ alphaDivisor I ≠ 0 ∧
    gValueDivisor I ≠ 0 ∧ momentumDivisor I ≠ 0 ∧ 0 < mixingTimeDivisor I ∧
    jsOr (decay I) 0.1 ≠ 0 ∧ 0 < 2 * grav * Dh I ∧
    viscosityRatioDivisor I = I.viscosity :=
  ⟨velocityDivisor_pos I, reDivisor_ne_zero I, alphaDivisor_ne_zero I,
   gValueDivisor_ne_zero I, momentumDivisor_ne_zero I, velocity_pos I,
   jsOr_ne_zero _ _ (by norm_num), by unfold grav; nlinarith [Dh_pos I], rfl⟩

/-- C9 counterexample: with a zero `chemicalDensity` input (and no dilution
water) the code substitutes 1000 kg/m³ for the chemical density, so the
returned blended density is 1000, not the value of the spec's formula
(which would be 0). -/
theorem C9_counterexample :
    (calculateMixing IchemDensZero).injectedDensity = 1000 ∧
    specInjectedDensity IchemDensZero = 0 := by
  constructor
  · show injDensity IchemDensZero = 1000
    norm_num [injDensity, totalInjLh, jsOr, waterDensity, IchemDensZero, I0]
  · norm_num [specInjectedDensity, IchemDensZero, I0]

/-- C9 amended: for every input record the blended density and viscosity
follow the spec's mass-weighted / log-weighted formulas after substituting
1000 for a zero `chemicalDensity` and `1e-6` for a zero `chemicalViscosity`,
with the total-injection-flow denominator floored to 1 when that flow is
zero. -/
theorem C9_blended_formulas_amended (I : MixingInputs) :
    (calculateMixing I).injectedDensity = amendedInjectedDensity I ∧
    (calculateMixing I).injectedViscosity = amendedInjectedViscosity I ∧
    (calculateMixing I).totalInjectionFlow = I.chemicalFlow + I.dilutionWaterFlow := by
  have ht : totalInjLh I = I.chemicalFlow + I.dilutionWaterFlow := by
    unfold totalInjLh; rw [jsOr_id, jsOr_id]
  have hwv : jsOr waterViscosity 1e-6 = 0.001 := by
    norm_num [waterViscosity, jsOr]
  refine ⟨?_, ?_, ht⟩
  · show injDensity I = _
    simp only [injDensity, amendedInjectedDensity, jsOr_id, ht, waterDensity, jsOr,
      ite_zero_self]
  · show injVisc I = _
    simp only [injVisc, amendedInjectedViscosity, jsOr_id, ht, hwv, jsOr, ite_zero_self]
    norm_num [waterViscosity]

/-- C4 amended: for mixer model NONE, `mixerCoV` is antitone in the available
length as long as both lengths are strictly positive (a zero length is
replaced by 1 by the `availableLength || 1` fallback, which breaks
monotonicity at 0). -/
theorem C4_length_antitone_amended (I : MixingInputs) (L1 L2 : ℝ)
    (hm : I.mixerModel = MixerModel.NONE) (h0 : 0 < L1) (h12 : L1 < L2) :
    (calculateMixing { I with availableLength := L2 }).mixerCoV ≤
      (calculateMixing { I with availableLength := L1 }).mixerCoV := by
  have hraw : mixerCoVRaw { I with availableLength := L2 } ≤
      mixerCoVRaw { I with availableLength := L1 } := by
    rw [mixerCoVRaw_none { I with availableLength := L1 } hm,
      mixerCoVRaw_none { I with availableLength := L2 } hm]
    have hA : alpha { I with availableLength := L2 } =
        alpha { I with availableLength := L1 } := rfl
    have hD : Dh { I with availableLength := L2 } =
        Dh { I with availableLength := L1 } := rfl
    rw [hA, hD]
    have hL1 : jsOr ({ I with availableLength := L1 } : MixingInputs).availableLength 1 = L1 :=
      jsOr_of_ne _ _ (ne_of_gt h0)
    have hL2 : jsOr ({ I with availableLength := L2 } : MixingInputs).availableLength 1 = L2 :=
      jsOr_of_ne _ _ (ne_of_gt (lt_trans h0 h12))
    rw [hL1, hL2]
    have hDpos : 0 < Dh { I with availableLength := L1 } := Dh_pos _
    have hdiv : L1 / Dh { I with availableLength := L1 } ≤
        L2 / Dh { I with availableLength := L1 } :=
      (div_le_div_iff_of_pos_right hDpos).mpr h12.le
    have hsn : (0 : ℝ) ≤ 0.75 * Real.sqrt 0.02 := by positivity
    have hexp : Real.exp (-0.75 * Real.sqrt 0.02 *
          (L2 / Dh { I with availableLength := L1 })) ≤
        Real.exp (-0.75 * Real.sqrt 0.02 *
          (L1 / Dh { I with availableLength := L1 })) := by
      apply Real.exp_le_exp.mpr
      nlinarith [mul_le_mul_of_nonneg_left hdiv hsn]
    have h2a : (0 : ℝ) ≤ 2 * Real.sqrt (alpha { I with availableLength := L1 }) := by
      positivity
    nlinarith [mul_le_mul_of_nonneg_left hexp h2a]
  show min 1.0 (max 0.0001 (mixerCoVRaw { I with availableLength := L2 })) ≤
    min 1.0 (max 0.0001 (mixerCoVRaw { I with availableLength := L1 }))
  exact min_le_min le_rfl (max_le_max le_rfl hraw)

/-- Witness for the amended C4 at the scenario record with lengths 10 and 20. -/
theorem C4_length_antitone_amended_witness :
    (calculateMixing { I0 with availableLength := 20 }).mixerCoV ≤
      (calculateMixing { I0 with availableLength := 10 }).mixerCoV :=
  C4_length_antitone_amended I0 10 20 rfl (by norm_num) (by norm_num)

set_option maxHeartbeats 1000000 in
/-- C4 counterexample: with mixer model NONE, raising `availableLength` from
0 to 0.5 strictly increases `mixerCoV`, because a zero length falls back to 1
via `availableLength || 1` while 0.5 is used as is — so the claimed
monotonicity fails on the pair `L1 = 0 < L2 = 0.5` (all other fields equal by
construction of `ILenHalf`). -/
theorem C4_counterexample :
    ILen0.mixerModel = MixerModel.NONE ∧
    ILen0.availableLength < ILenHalf.availableLength ∧
    (calculateMixing ILen0).mixerCoV < (calculateMixing ILenHalf).mixerCoV := by
  refine ⟨rfl, by norm_num [ILen0, ILenHalf, I0], ?_⟩
  show mixerCoV ILen0 < mixerCoV ILenHalf
  have hct : ILen0.conduitType = ConduitType.PIPE := rfl
  have hcs : ILen0.conduitShape = ConduitShape.CIRCULAR := rfl
  have hctH : ILenHalf.conduitType = ConduitType.PIPE := rfl
  have hcsH : ILenHalf.conduitShape = ConduitShape.CIRCULAR := rfl
  have hd0 : Mixing.d ILen0 = 1 := by norm_num [Mixing.d, jsOr, ILen0, I0]
  have hdH : Mixing.d ILenHalf = 1 := by norm_num [Mixing.d, jsOr, ILenHalf, ILen0, I0]
  have hDh0 : Dh ILen0 = 1 := by
    unfold Dh
    rw [if_pos hct, if_pos hcs, hd0]
  have hDhH : Dh ILenHalf = 1 := by
    unfold Dh
    rw [if_pos hctH, if_pos hcsH, hdH]
  have halpha0 : alpha ILen0 = 0.001 := by
    norm_num [alpha, alphaDivisor, Q_m3h, totalInjLh, jsOr, ILen0, I0]
  have halphaH : alpha ILenHalf = 0.001 := by
    norm_num [alpha, alphaDivisor, Q_m3h, totalInjLh, jsOr, ILenHalf, ILen0, I0]
  have hlen0 : jsOr ILen0.availableLength 1 / Dh ILen0 = 1 := by
    rw [hDh0]
    norm_num [jsOr, ILen0, I0]
  have hlenH : jsOr ILenHalf.availableLength 1 / Dh ILenHalf = 0.5 := by
    rw [hDhH]
    norm_num [jsOr, ILenHalf, ILen0, I0]
  have hraw0 : mixerCoVRaw ILen0 =
      2 * Real.sqrt 0.001 * Real.exp (-0.75 * Real.sqrt 0.02 * 1) := by
    rw [mixerCoVRaw_none ILen0 rfl, halpha0, hlen0]
  have hrawH : mixerCoVRaw ILenHalf =
      2 * Real.sqrt 0.001 * Real.exp (-0.75 * Real.sqrt 0.02 * 0.5) := by
    rw [mixerCoVRaw_none ILenHalf rfl, halphaH, hlenH]
  have hs1lb : (0.0316 : ℝ) ≤ Real.sqrt 0.001 :=
    real_le_sqrt _ _ (by norm_num) (by norm_num)
  have hs1ub : Real.sqrt 0.001 ≤ 0.0317 :=
    real_sqrt_le _ _ (by norm_num) (by norm_num)
  have hE0neg : -0.75 * Real.sqrt 0.02 * 1 ≤ 0 := by nlinarith [sqrt002_lb]
  have hEHneg : -0.75 * Real.sqrt 0.02 * 0.5 ≤ 0 := by nlinarith [sqrt002_lb]
  have hexp0lb : (0.8 : ℝ) ≤ Real.exp (-0.75 * Real.sqrt 0.02 * 1) := by
    have h1 := Real.add_one_le_exp (-0.75 * Real.sqrt 0.02 * 1)
    nlinarith [sqrt002_ub]
  have hexp0ub : Real.exp (-0.75 * Real.sqrt 0.02 * 1) ≤ 1 := by
    calc Real.exp (-0.75 * Real.sqrt 0.02 * 1) ≤ Real.exp 0 :=
          Real.exp_le_exp.mpr hE0neg
      _ = 1 := Real.exp_zero
  have hexpHub : Real.exp (-0.75 * Real.sqrt 0.02 * 0.5) ≤ 1 := by
    calc Real.exp (-0.75 * Real.sqrt 0.02 * 0.5) ≤ Real.exp 0 :=
          Real.exp_le_exp.mpr hEHneg
      _ = 1 := Real.exp_zero
  have hlow0 : (0.0001 : ℝ) ≤ mixerCoVRaw ILen0 := by
    rw [hraw0]
    nlinarith [mul_le_mul hs1lb hexp0lb (by norm_num : (0:ℝ) ≤ 0.8)
      (Real.sqrt_nonneg (0.001 : ℝ))]
  have hup0 : mixerCoVRaw ILen0 ≤ 1.0 := by
    rw [hraw0]
    nlinarith [mul_le_mul hs1ub hexp0ub (Real.exp_pos _).le
      (by norm_num : (0:ℝ) ≤ 0.0317)]
  have hlt : mixerCoVRaw ILen0 < mixerCoVRaw ILenHalf := by
    rw [hraw0, hrawH]
    have hexplt : Real.exp (-0.75 * Real.sqrt 0.02 * 1) <
        Real.exp (-0.75 * Real.sqrt 0.02 * 0.5) :=
      Real.exp_lt_exp.mpr (by nlinarith [sqrt002_lb])
    have hspos : (0 : ℝ) < 2 * Real.sqrt 0.001 := by nlinarith [hs1lb]
    nlinarith [mul_lt_mul_of_pos_left hexplt hspos]
  have hlowH : (0.0001 : ℝ) ≤ mixerCoVRaw ILenHalf := le_trans hlow0 hlt.le
  have hupH : mixerCoVRaw ILenHalf ≤ 1.0 := by
    rw [hrawH]
    nlinarith [mul_le_mul hs1ub hexpHub (Real.exp_pos _).le
      (by norm_num : (0:ℝ) ≤ 0.0317)]
  unfold mixerCoV
  rw [max_eq_right hlow0, min_eq_right hup0, max_eq_right hlowH, min_eq_right hupH]
  exact hlt

/-- C5: on the degenerate record (zero flow rate, zero dimension, zero
injection flows) the engine still produces a complete, clamped, finite
result: every numeric field evaluates to an explicit real value or explicit
bound, and every floored divisor is nonzero. -/
theorem C5_degenerate_total :
    (calculateMixing Idegen).totalInjectionFlow = 0 ∧
    (calculateMixing Idegen).injectedDensity = 0 ∧
    (calculateMixing Idegen).injectedViscosity = 1 ∧
    (calculateMixing Idegen).viscosityRatio = 1000 ∧
    (calculateMixing Idegen).wettedArea = Real.pi * 0.00000025 ∧
    (calculateMixing Idegen).hydraulicDiameter = 0.001 ∧
    0 < (calculateMixing Idegen).velocity ∧
    0 < (calculateMixing Idegen).reynoldsNumber ∧
    (calculateMixing Idegen).mixerCoV = 0.0001 ∧
    (calculateMixing Idegen).isCompliant = true ∧
    (calculateMixing Idegen).mixingDistanceNeeded = 10 ∧
    0 < (calculateMixing Idegen).mixingTimeNeeded ∧
    (calculateMixing Idegen).isTimeCompliant = true ∧
    0 ≤ (calculateMixing Idegen).headlossMeters ∧
    0 ≤ (calculateMixing Idegen).headloss ∧
    0 ≤ (calculateMixing Idegen).gValue ∧
    (calculateMixing Idegen).momentumRatio = 0 ∧
    (calculateMixing Idegen).momentumRegime = MomentumRegime.Low ∧
    velocityDivisor Idegen ≠ 0 ∧ reDivisor Idegen ≠ 0 ∧
    alphaDivisor Idegen ≠ 0 ∧ gValueDivisor Idegen ≠ 0 ∧
    momentumDivisor Idegen ≠ 0 := by
  have hct : Idegen.conduitType = ConduitType.PIPE := rfl
  have hcs : Idegen.conduitShape = ConduitShape.CIRCULAR := rfl
  have hmm' : Idegen.mixerModel = MixerModel.NONE := rfl
  have ht : totalInjLh Idegen = 0 := by norm_num [totalInjLh, jsOr, Idegen, I0]
  have hinjD : injDensity Idegen = 0 := by
    norm_num [injDensity, totalInjLh, jsOr, waterDensity, Idegen, I0]
  have hinjV : injVisc Idegen = 1 := by
    norm_num [injVisc, totalInjLh, jsOr, waterViscosity, Idegen, I0, Real.exp_zero]
  have hd' : Mixing.d Idegen = 0.001 := by norm_num [Mixing.d, jsOr, Idegen, I0]
  have hQ : Q_m3h Idegen = 1 := by norm_num [Q_m3h, jsOr, Idegen, I0]
  have harea : area Idegen = Real.pi * 0.00000025 := by
    unfold Mixing.area
    rw [if_pos hct, if_pos hcs, hd']
    norm_num
  have hDh : Dh Idegen = 0.001 := by
    unfold Dh
    rw [if_pos hct, if_pos hcs, hd']
  have hvdiv : velocityDivisor Idegen = Real.pi * 0.00000025 := by
    unfold velocityDivisor
    rw [harea]
    exact jsOr_of_ne _ _ (ne_of_gt (by positivity))
  have hvel : velocity Idegen = 1 / 3600 / (Real.pi * 0.00000025) := by
    unfold velocity
    rw [hQ, hvdiv]
  have hvel1 : 1 ≤ velocity Idegen := by
    rw [hvel, le_div_iff₀ (by positivity)]
    nlinarith [Real.pi_lt_d2]
  have hvelpos := velocity_pos Idegen
  have halpha : alpha Idegen = 1000 := by
    unfold alpha alphaDivisor
    rw [hQ, ht]
    norm_num [jsOr]
  have hlen : jsOr Idegen.availableLength 1 / Dh Idegen = 10000 := by
    rw [hDh]
    norm_num [jsOr, Idegen, I0]
  have hraw : mixerCoVRaw Idegen ≤ 0.0001 := by
    rw [mixerCoVRaw_none Idegen hmm', halpha, hlen]
    have hs32 : Real.sqrt 1000 ≤ 32 := real_sqrt_le _ _ (by norm_num) (by norm_num)
    have hE : -0.75 * Real.sqrt 0.02 * 10000 ≤ -1060 := by nlinarith [sqrt002_lb]
    have hexpE : Real.exp (-0.75 * Real.sqrt 0.02 * 10000) ≤ Real.exp (-1060) :=
      Real.exp_le_exp.mpr hE
    have hcube : (1060 : ℝ) ^ 3 / 6 ≤ Real.exp 1060 := by
      nlinarith [exp_taylor4_lb 1060 (by norm_num)]
    have hinv : Real.exp (-(1060 : ℝ)) ≤ 6 / 1191016000 := by
      rw [Real.exp_neg]
      calc (Real.exp 1060)⁻¹ ≤ ((1060 : ℝ) ^ 3 / 6)⁻¹ :=
            inv_anti₀ (by norm_num) hcube
        _ = 6 / 1191016000 := by norm_num
    have hexp2 : Real.exp (-0.75 * Real.sqrt 0.02 * 10000) ≤ 6 / 1191016000 :=
      le_trans hexpE hinv
    nlinarith [mul_le_mul hs32 hexp2 (Real.exp_pos _).le (by norm_num : (0:ℝ) ≤ 32),
      Real.sqrt_nonneg (1000 : ℝ), (Real.exp_pos (-0.75 * Real.sqrt 0.02 * 10000)).le]
  have hcov : mixerCoV Idegen = 0.0001 := by
    unfold mixerCoV
    rw [max_eq_left hraw, min_eq_right (by norm_num)]
  have htCoV : tCoV Idegen = 0.05 := by norm_num [tCoV, jsOr, Idegen, I0]
  have hisC : decide (mixerCoV Idegen ≤ tCoV Idegen) = true := by
    rw [decide_eq_true_eq, hcov, htCoV]
    norm_num
  have hLm : Lm Idegen = 10 := rfl
  have hdist : mixingDistanceNeeded Idegen = 10 := by
    unfold mixingDistanceNeeded
    rw [if_pos (by rw [hcov, htCoV]; norm_num)]
    exact hLm
  have htgt : Idegen.targetMixingTime = 10 := rfl
  have hisT : decide (mixingDistanceNeeded Idegen / velocity Idegen ≤
      Idegen.targetMixingTime) = true := by
    rw [decide_eq_true_eq, hdist, htgt]
    exact div_le_self (by norm_num) hvel1
  have hmr : momentumRatio Idegen = 0 := by
    unfold momentumRatio uInj totalInjM3s
    rw [ht]
    norm_num
  have hregime : momentumRegimeOf (momentumRatio Idegen) = MomentumRegime.Low := by
    rw [hmr]
    unfold momentumRegimeOf
    rw [if_pos (by norm_num)]
  have hRe : 0 < Re Idegen := by
    unfold Re
    have h1 : reDivisor Idegen = 0.001 := by norm_num [reDivisor, jsOr, Idegen, I0]
    have h2 : Idegen.density = 1000 := rfl
    rw [h1, h2]
    apply div_pos _ (by norm_num)
    nlinarith [velocity_pos Idegen, Dh_pos Idegen]
  have hhlm : 0 ≤ headlossM Idegen :=
    headlossM_nonneg Idegen (by norm_num [Idegen, I0]) (by norm_num [Idegen, I0])
  have hhlk : 0 ≤ headlossKpa Idegen := by
    unfold headlossKpa grav
    have h2 : Idegen.density = 1000 := rfl
    rw [h2]
    nlinarith [hhlm]
  have hvr : injVisc Idegen / viscosityRatioDivisor Idegen = 1000 := by
    rw [hinjV]
    norm_num [viscosityRatioDivisor, Idegen, I0]
  exact ⟨ht, hinjD, hinjV, hvr, harea, hDh, hvelpos, hRe, hcov, hisC, hdist,
    div_pos (by rw [hdist]; norm_num) hvelpos, hisT, hhlm, hhlk,
    Real.sqrt_nonneg _, hmr, hregime, ne_of_gt (velocityDivisor_pos Idegen),
    reDivisor_ne_zero Idegen, alphaDivisor_ne_zero Idegen,
    gValueDivisor_ne_zero Idegen, momentumDivisor_ne_zero Idegen⟩

/-! ## Lemmas about the retry loop -/

lemma callWithRetryGo_succ {α : Type} (f : ℕ → Except JsError α) (i rem : ℕ) :
    callWithRetryGo f i (rem + 1) =
      match f i with
      | Except.ok a => ⟨[], 1, Except.ok a⟩
      | Except.error e =>
        if 0 < rem ∧ isRateLimit e then
          let t := callWithRetryGo f (i + 1) rem
          ⟨2 ^ i * 1000 :: t.delays, t.attempts + 1, t.outcome⟩
        else ⟨[], 1, Except.error e⟩ := rfl

lemma go_ok {α : Type} (f : ℕ → Except JsError α) (i rem : ℕ) (a : α)
    (hfi : f i = Except.ok a) :
    callWithRetryGo f i (rem + 1) = ⟨[], 1, Except.ok a⟩ := by
  rw [callWithRetryGo_succ, hfi]

lemma go_stop {α : Type} (f : ℕ → Except JsError α) (i rem : ℕ) (e : JsError)
    (hfi : f i = Except.error e) (hstop : rem = 0 ∨ isRateLimit e = false) :
    callWithRetryGo f i (rem + 1) = ⟨[], 1, Except.error e⟩ := by
  rw [callWithRetryGo_succ, hfi]
  rcases hstop with h1 | h1 <;> simp [h1]

lemma go_retry {α : Type} (f : ℕ → Except JsError α) (i rem : ℕ) (e : JsError)
    (hfi : f i = Except.error e) (hrem : 0 < rem) (hrl : isRateLimit e = true) :
    callWithRetryGo f i (rem + 1) =
      ⟨2 ^ i * 1000 :: (callWithRetryGo f (i + 1) rem).delays,
        (callWithRetryGo f (i + 1) rem).attempts + 1,
        (callWithRetryGo f (i + 1) rem).outcome⟩ := by
  rw [callWithRetryGo_succ, hfi]
  simp [hrem, hrl]

/-- C10: the retry wrapper makes at most 3 attempts; the sleep after the
`i`-th failed attempt is `2^i · 1000` ms (so 1 s then 2 s; the 4 s step of
the exponential schedule is never reached, as at most two retries fit into 3
attempts); a retry happens only after a rate-limit failure; a non-rate-limit
failure ends the loop immediately with that error; and when the loop
ultimately fails, `getAIRecommendations` and `extractGuideData` return their
fixed fallback strings instead of the error. -/
theorem C10_retry_policy (f : ℕ → Except JsError String) :
    (1 ≤ (callWithRetry f 3).attempts ∧ (callWithRetry f 3).attempts ≤ 3) ∧
    (callWithRetry f 3).delays =
      (List.range ((callWithRetry f 3).attempts - 1)).map (fun i => 2 ^ i * 1000) ∧
    (∀ i, i + 1 < (callWithRetry f 3).attempts →
      ∃ e, f i = Except.error e ∧ isRateLimit e = true) ∧
    (∀ i e, i < 3 → f i = Except.error e → isRateLimit e = false →
      (∀ j, j < i → ∃ e', f j = Except.error e' ∧ isRateLimit e' = true) →
      (callWithRetry f 3).attempts = i + 1 ∧
        (callWithRetry f 3).outcome = Except.error e) ∧
    (∀ e, (callWithRetry f 3).outcome = Except.error e →
      getAIRecommendations f = "Audit generation failed." ∧
      extractGuideData f = "Extraction failed.") := by
  have hcw : callWithRetry f 3 = callWithRetryGo f 0 (2 + 1) := rfl
  cases h0 : f 0 with
  | ok a0 =>
    have htr : callWithRetry f 3 = ⟨[], 1, Except.ok a0⟩ := by
      rw [hcw, go_ok f 0 2 a0 h0]
    refine ⟨by simp [htr], by simp [htr], ?_, ?_, ?_⟩
    · intro i hi; simp [htr] at hi
    · intro i e hi3 hfe hnrl hprev
      exfalso
      match i with
      | 0 => rw [h0] at hfe; cases hfe
      | j + 1 =>
        obtain ⟨e', he', _⟩ := hprev 0 (by omega)
        rw [h0] at he'; cases he'
    · intro e he; simp [htr] at he
  | error e0 =>
    cases hrl0 : isRateLimit e0 with
    | false =>
      have htr : callWithRetry f 3 = ⟨[], 1, Except.error e0⟩ := by
        rw [hcw, go_stop f 0 2 e0 h0 (Or.inr hrl0)]
      refine ⟨by simp [htr], by simp [htr], ?_, ?_, ?_⟩
      · intro i hi; simp [htr] at hi
      · intro i e hi3 hfe hnrl hprev
        match i with
        | 0 =>
          rw [h0] at hfe
          injection hfe with he'
          subst he'
          exact ⟨by simp [htr], by simp [htr]⟩
        | j + 1 =>
          obtain ⟨e', he', hrl'⟩ := hprev 0 (by omega)
          rw [h0] at he'
          injection he' with he''
          subst he''
          rw [hrl0] at hrl'
          cases hrl'
      · intro e he
        simp only [htr] at he
        injection he with he'
        subst he'
        exact ⟨by simp [getAIRecommendations, htr], by simp [extractGuideData, htr]⟩
    | true =>
      cases h1 : f 1 with
      | ok a1 =>
        have htr : callWithRetry f 3 = ⟨[2 ^ 0 * 1000], 2, Except.ok a1⟩ := by
          rw [hcw, go_retry f 0 2 e0 h0 (by omega) hrl0, go_ok f 1 1 a1 h1]
        refine ⟨by simp [htr], by simp [htr]; decide, ?_, ?_, ?_⟩
        · intro i hi
          simp only [htr] at hi
          match i, hi with
          | 0, _ => exact ⟨e0, h0, hrl0⟩
        · intro i e hi3 hfe hnrl hprev
          exfalso
          match i with
          | 0 =>
            rw [h0] at hfe
            injection hfe with he'
            subst he'
            rw [hrl0] at hnrl
            cases hnrl
          | 1 => rw [h1] at hfe; cases hfe
          | j + 2 =>
            obtain ⟨e', he', _⟩ := hprev 1 (by omega)
            rw [h1] at he'; cases he'
        · intro e he; simp [htr] at he
      | error e1 =>
        cases hrl1 : isRateLimit e1 with
        | false =>
          have htr : callWithRetry f 3 = ⟨[2 ^ 0 * 1000], 2, Except.error e1⟩ := by
            rw [hcw, go_retry f 0 2 e0 h0 (by omega) hrl0,
              go_stop f 1 1 e1 h1 (Or.inr hrl1)]
          refine ⟨by simp [htr], by simp [htr]; decide, ?_, ?_, ?_⟩
          · intro i hi
            simp only [htr] at hi
            match i, hi with
            | 0, _ => exact ⟨e0, h0, hrl0⟩
          · intro i e hi3 hfe hnrl hprev
            match i with
            | 0 =>
              exfalso
              rw [h0] at hfe
              injection hfe with he'
              subst he'
              rw [hrl0] at hnrl
              cases hnrl
            | 1 =>
              rw [h1] at hfe
              injection hfe with he'
              subst he'
              exact ⟨by simp [htr], by simp [htr]⟩
            | j + 2 =>
              exfalso
              obtain ⟨e', he', hrl'⟩ := hprev 1 (by omega)
              rw [h1] at he'
              injection he' with he''
              subst he''
              rw [hrl1] at hrl'
              cases hrl'
          · intro e he
            simp only [htr] at he
            injection he with he'
            subst he'
            exact ⟨by simp [getAIRecommendations, htr], by simp [extractGuideData, htr]⟩
        | true =>
          cases h2 : f 2 with
          | ok a2 =>
            have htr : callWithRetry f 3 =
                ⟨[2 ^ 0 * 1000, 2 ^ 1 * 1000], 3, Except.ok a2⟩ := by
              rw [hcw, go_retry f 0 2 e0 h0 (by omega) hrl0,
                go_retry f 1 1 e1 h1 (by omega) hrl1, go_ok f 2 0 a2 h2]
            refine ⟨by simp [htr], by simp [htr]; decide, ?_, ?_, ?_⟩
            · intro i hi
              simp only [htr] at hi
              match i, hi with
              | 0, _ => exact ⟨e0, h0, hrl0⟩
              | 1, _ => exact ⟨e1, h1, hrl1⟩
            · intro i e hi3 hfe hnrl hprev
              exfalso
              match i with
              | 0 =>
                rw [h0] at hfe
                injection hfe with he'
                subst he'
                rw [hrl0] at hnrl
                cases hnrl
              | 1 =>
                rw [h1] at hfe
                injection hfe with he'
                subst he'
                rw [hrl1] at hnrl
                cases hnrl
              | 2 => rw [h2] at hfe; cases hfe
            · intro e he; simp [htr] at he
          | error e2 =>
            have htr : callWithRetry f 3 =
                ⟨[2 ^ 0 * 1000, 2 ^ 1 * 1000], 3, Except.error e2⟩ := by
              rw [hcw, go_retry f 0 2 e0 h0 (by omega) hrl0,
                go_retry f 1 1 e1 h1 (by omega) hrl1,
                go_stop f 2 0 e2 h2 (Or.inl rfl)]
            refine ⟨by simp [htr], by simp [htr]; decide, ?_, ?_, ?_⟩
            · intro i hi
              simp only [htr] at hi
              match i, hi with
              | 0, _ => exact ⟨e0, h0, hrl0⟩
              | 1, _ => exact ⟨e1, h1, hrl1⟩
            · intro i e hi3 hfe hnrl hprev
              match i with
              | 0 =>
                exfalso
                rw [h0] at hfe
                injection hfe with he'
                subst he'
                rw [hrl0] at hnrl
                cases hnrl
              | 1 =>
                exfalso
                rw [h1] at hfe
                injection hfe with he'
                subst he'
                rw [hrl1] at hnrl
                cases hnrl
              | 2 =>
                rw [h2] at hfe
                injection hfe with he'
                subst he'
                exact ⟨by simp [htr], by simp [htr]⟩
            · intro e he
              simp only [htr] at he
              injection he with he'
              subst he'
              exact ⟨by simp [getAIRecommendations, htr], by simp [extractGuideData, htr]⟩

/-! ## Concrete exponential and logarithm bounds for the end-to-end scenario -/

lemma e41996_ub : Real.exp (4.1996 : ℝ) ≤ 66.66 := by
  rw [show (4.1996 : ℝ) = (4 : ℕ) + 0.1996 by norm_num]
  refine exp_nat_add_ub 4 0.1996 1.22092 66.66 ?_ (by norm_num)
  exact le_trans (exp_taylor9_ub 0.1996 (by norm_num) (by norm_num)) (by norm_num)

lemma e41998_lb : (66.667 : ℝ) ≤ Real.exp (4.1998 : ℝ) := by
  rw [show (4.1998 : ℝ) = (4 : ℕ) + 0.1998 by norm_num]
  refine exp_nat_add_lb 4 0.1998 1.22115 66.667 (by norm_num) ?_ (by norm_num)
  exact le_trans (by norm_num) (exp_taylor9_lb 0.1998 (by norm_num))

lemma e69077_ub : Real.exp (6.9077 : ℝ) ≤ 1000 := by
  rw [show (6.9077 : ℝ) = (6 : ℕ) + 0.9077 by norm_num]
  refine exp_nat_add_ub 6 0.9077 2.4787 1000 ?_ (by norm_num)
  exact le_trans (exp_taylor9_ub 0.9077 (by norm_num) (by norm_num)) (by norm_num)

lemma e69078_lb : (1000 : ℝ) ≤ Real.exp (6.9078 : ℝ) := by
  rw [show (6.9078 : ℝ) = (6 : ℕ) + 0.9078 by norm_num]
  refine exp_nat_add_lb 6 0.9078 2.4788 1000 (by norm_num) ?_ (by norm_num)
  exact le_trans (by norm_num) (exp_taylor9_lb 0.9078 (by norm_num))

lemma e67787_lb : (869 : ℝ) ≤ Real.exp (6.7787 : ℝ) := by
  rw [show (6.7787 : ℝ) = (6 : ℕ) + 0.7787 by norm_num]
  refine exp_nat_add_lb 6 0.7787 2.1786 869 (by norm_num) ?_ (by norm_num)
  exact le_trans (by norm_num) (exp_taylor9_lb 0.7787 (by norm_num))

lemma e67789_ub : Real.exp (6.7789 : ℝ) ≤ 886 := by
  rw [show (6.7789 : ℝ) = (6 : ℕ) + 0.7789 by norm_num]
  refine exp_nat_add_ub 6 0.7789 2.1791 886 ?_ (by norm_num)
  exact le_trans (exp_taylor9_ub 0.7789 (by norm_num) (by norm_num)) (by norm_num)

lemma e29957_ub : Real.exp (2.9957 : ℝ) ≤ 19.9999 := by
  rw [show (2.9957 : ℝ) = (2 : ℕ) + 0.9957 by norm_num]
  refine exp_nat_add_ub 2 0.9957 2.70663 19.9999 ?_ (by norm_num)
  exact le_trans (exp_taylor9_ub 0.9957 (by norm_num) (by norm_num)) (by norm_num)

lemma e29958_lb : (20 : ℝ) ≤ Real.exp (2.9958 : ℝ) := by
  rw [show (2.9958 : ℝ) = (2 : ℕ) + 0.9958 by norm_num]
  refine exp_nat_add_lb 2 0.9958 2.70685 20 (by norm_num) ?_ (by norm_num)
  exact le_trans (by norm_num) (exp_taylor9_lb 0.9958 (by norm_num))

lemma log20_lb : (2.9957 : ℝ) ≤ Real.log 20 := by
  rw [Real.le_log_iff_exp_le (by norm_num)]
  exact le_trans e29957_ub (by norm_num)

lemma log20_ub : Real.log 20 ≤ 2.9958 := by
  rw [Real.log_le_iff_le_exp (by norm_num)]
  exact e29958_lb

lemma log0015_ub : Real.log 0.015 ≤ -4.1996 := by
  rw [show (0.015 : ℝ) = ((200 : ℝ) / 3)⁻¹ by norm_num, Real.log_inv]
  exact neg_le_neg ((Real.le_log_iff_exp_le (by norm_num)).mpr
    (le_trans e41996_ub (by norm_num)))

lemma log0015_lb : (-4.1998 : ℝ) ≤ Real.log 0.015 := by
  rw [show (0.015 : ℝ) = ((200 : ℝ) / 3)⁻¹ by norm_num, Real.log_inv]
  exact neg_le_neg ((Real.log_le_iff_le_exp (by norm_num)).mpr
    (le_trans (by norm_num) e41998_lb))

lemma log0001_ub : Real.log 0.001 ≤ -6.9077 := by
  rw [show (0.001 : ℝ) = ((1000 : ℝ))⁻¹ by norm_num, Real.log_inv]
  exact neg_le_neg ((Real.le_log_iff_exp_le (by norm_num)).mpr e69077_ub)

lemma log0001_lb : (-6.9078 : ℝ) ≤ Real.log 0.001 := by
  rw [show (0.001 : ℝ) = ((1000 : ℝ))⁻¹ by norm_num, Real.log_inv]
  exact neg_le_neg ((Real.log_le_iff_le_exp (by norm_num)).mpr e69078_lb)

/-! ## Evaluation of the engine at the end-to-end scenario record -/

lemma I0_ct : I0.conduitType = ConduitType.PIPE := rfl

lemma I0_cs : I0.conduitShape = ConduitShape.CIRCULAR := rfl

lemma I0_d : Mixing.d I0 = 0.8 := by norm_num [Mixing.d, jsOr, I0]

lemma I0_area : area I0 = Real.pi * 0.16 := by
  unfold Mixing.area
  rw [if_pos I0_ct, if_pos I0_cs, I0_d]
  norm_num

lemma I0_Dh : Dh I0 = 0.8 := by
  unfold Dh
  rw [if_pos I0_ct, if_pos I0_cs, I0_d]

lemma I0_Q : Q_m3h I0 = 1500 := by norm_num [Q_m3h, jsOr, I0]

lemma I0_vel : velocity I0 = 1500 / 3600 / (Real.pi * 0.16) := by
  unfold velocity velocityDivisor
  rw [I0_area, I0_Q, jsOr_of_ne _ _ (ne_of_gt (by positivity))]

lemma I0_vel_lb : (0.82893 : ℝ) ≤ velocity I0 := by
  rw [I0_vel, le_div_iff₀ (by positivity)]
  nlinarith [Real.pi_lt_d6]

lemma I0_vel_ub : velocity I0 ≤ 0.82894 := by
  rw [I0_vel, div_le_iff₀ (by positivity)]
  nlinarith [Real.pi_gt_d6]

lemma I0_Re : Re I0 = 1000 * velocity I0 * 0.8 / 0.001 := by
  unfold Re reDivisor
  rw [show I0.density = 1000 from rfl, show I0.viscosity = 0.001 from rfl,
    I0_Dh, jsOr_of_ne _ _ (by norm_num)]

lemma I0_totalInj : totalInjLh I0 = 210 := by norm_num [totalInjLh, jsOr, I0]

lemma I0_injD : injDensity I0 = 7150 / 7 := by
  unfold injDensity
  rw [I0_totalInj]
  norm_num [jsOr, I0, waterDensity]

lemma I0_injV : injVisc I0 =
    Real.exp ((10 * Real.log 0.015 + 200 * Real.log 0.001) / 210) := by
  unfold injVisc
  rw [I0_totalInj]
  norm_num [jsOr, I0, waterViscosity]

lemma I0_alpha : alpha I0 = 50000 / 7 := by
  unfold alpha alphaDivisor
  rw [I0_Q, I0_totalInj]
  norm_num [jsOr]

lemma I0_len_Dh : jsOr I0.availableLength 1 / Dh I0 = 12.5 := by
  rw [I0_Dh]
  norm_num [jsOr, I0]

lemma exp_two_le_8 : Real.exp 2 ≤ 8 := by
  have h : Real.exp 2 = Real.exp 1 * Real.exp 1 := by
    rw [← Real.exp_add]
    norm_num
  rw [h]
  nlinarith [Real.exp_one_lt_d9, Real.exp_one_gt_d9]

lemma I0_covraw_ge : 1 ≤ mixerCoVRaw I0 := by
  rw [mixerCoVRaw_none I0 rfl, I0_alpha, I0_len_Dh]
  have hsq : (84 : ℝ) ≤ Real.sqrt (50000 / 7) :=
    real_le_sqrt _ _ (by norm_num) (by norm_num)
  have hEge : (-2 : ℝ) ≤ -0.75 * Real.sqrt 0.02 * 12.5 := by nlinarith [sqrt002_ub]
  have hexp : Real.exp (-2 : ℝ) ≤ Real.exp (-0.75 * Real.sqrt 0.02 * 12.5) :=
    Real.exp_le_exp.mpr hEge
  have hexp2 : (1 / 8 : ℝ) ≤ Real.exp (-2 : ℝ) := by
    rw [Real.exp_neg, inv_eq_one_div]
    exact one_div_le_one_div_of_le (Real.exp_pos 2) exp_two_le_8
  nlinarith [mul_le_mul hsq (le_trans hexp2 hexp) (by norm_num : (0:ℝ) ≤ 1/8)
    (Real.sqrt_nonneg (50000 / 7 : ℝ))]

lemma I0_cov : mixerCoV I0 = 1 := by
  unfold mixerCoV
  have h1 : (1.0 : ℝ) ≤ max 0.0001 (mixerCoVRaw I0) :=
    le_trans (by norm_num [I0_covraw_ge]) (le_max_right _ _)
  rw [min_eq_left h1]
  norm_num

lemma I0_tCoV : tCoV I0 = 0.05 := by norm_num [tCoV, jsOr, I0]

lemma I0_not_compliant : ¬ (mixerCoV I0 ≤ tCoV I0) := by
  rw [I0_cov, I0_tCoV]
  norm_num

lemma I0_decay_pos : (0 : ℝ) < 0.75 * Real.sqrt 0.02 := by nlinarith [sqrt002_lb]

lemma I0_dist : mixingDistanceNeeded I0 =
    10 + Real.log 20 / (0.75 * Real.sqrt 0.02) * 0.8 := by
  unfold mixingDistanceNeeded
  rw [if_neg I0_not_compliant, I0_cov, I0_tCoV]
  have hLm : Lm I0 = 10 := rfl
  have hdec : decay I0 = 0.75 * Real.sqrt 0.02 := by
    unfold decay
    rw [if_pos I0_ct]
  rw [hLm, hdec, I0_Dh, jsOr_of_ne _ _ (ne_of_gt I0_decay_pos)]
  norm_num

lemma I0_dist_lb : (32.59 : ℝ) ≤ mixingDistanceNeeded I0 := by
  rw [I0_dist]
  have hs_ub : 0.75 * Real.sqrt 0.02 ≤ 0.10606605 := by nlinarith [sqrt002_ub]
  have hdiv : (28.24 : ℝ) ≤ Real.log 20 / (0.75 * Real.sqrt 0.02) := by
    rw [le_div_iff₀ I0_decay_pos]
    nlinarith [log20_lb, hs_ub]
  linarith

lemma I0_dist_ub : mixingDistanceNeeded I0 ≤ 32.6 := by
  rw [I0_dist]
  have hs_lb : (0.106065975 : ℝ) ≤ 0.75 * Real.sqrt 0.02 := by
    nlinarith [sqrt002_lb]
  have hdiv : Real.log 20 / (0.75 * Real.sqrt 0.02) ≤ 28.247 := by
    rw [div_le_iff₀ I0_decay_pos]
    nlinarith [log20_ub, hs_lb]
  linarith

lemma I0_time_lb : (39 : ℝ) ≤ mixingDistanceNeeded I0 / velocity I0 := by
  rw [le_div_iff₀ (velocity_pos I0)]
  nlinarith [I0_vel_ub, I0_dist_lb]

lemma I0_time_ub : mixingDistanceNeeded I0 / velocity I0 ≤ 39.4 := by
  rw [div_le_iff₀ (velocity_pos I0)]
  nlinarith [I0_vel_lb, I0_dist_ub]

lemma I0_hl : headlossM I0 = 0.02 * 10 * velocity I0 ^ 2 / (2 * 9.81 * 0.8) := by
  unfold headlossM grav
  rw [show FD I0 = 0.02 from rfl, show Lm I0 = 10 from rfl, I0_Dh]

lemma I0_hl_lb : (0.0087554 : ℝ) ≤ headlossM I0 := by
  rw [I0_hl]
  have h1 : (0.82893 : ℝ) ^ 2 ≤ velocity I0 ^ 2 := by
    nlinarith [I0_vel_lb, I0_vel_ub]
  have h3 : (0.02 : ℝ) * 10 * velocity I0 ^ 2 / (2 * 9.81 * 0.8) =
      velocity I0 ^ 2 * (1 / 78.48) := by ring
  rw [h3]
  norm_num at h1
  nlinarith

lemma I0_hl_ub : headlossM I0 ≤ 0.0087557 := by
  rw [I0_hl]
  have h2 : velocity I0 ^ 2 ≤ (0.82894 : ℝ) ^ 2 := by
    nlinarith [I0_vel_lb, I0_vel_ub]
  have h3 : (0.02 : ℝ) * 10 * velocity I0 ^ 2 / (2 * 9.81 * 0.8) =
      velocity I0 ^ 2 * (1 / 78.48) := by ring
  rw [h3]
  norm_num at h2
  nlinarith

lemma I0_hl_bounds : |headlossM I0 - 0.00876| ≤ 0.0000876 := by
  rw [abs_le]
  constructor <;> nlinarith [I0_hl_lb, I0_hl_ub]

lemma I0_hk : headlossKpa I0 = headlossM I0 * 1000 * 9.81 / 1000 := by
  unfold headlossKpa grav
  rw [show I0.density = 1000 from rfl]

lemma I0_hk_bounds : |headlossKpa I0 - 0.0859| ≤ 0.000859 := by
  rw [I0_hk, abs_le]
  have h3 : headlossM I0 * 1000 * 9.81 / 1000 = headlossM I0 * 9.81 := by ring
  rw [h3]
  constructor <;> nlinarith [I0_hl_lb, I0_hl_ub]

lemma I0_uinj : uInj I0 = 210 / 3600000 / (Real.pi * (0.0125 : ℝ) ^ 2) := by
  unfold uInj totalInjM3s
  rw [I0_totalInj, show I0.injectionType = InjectionType.SINGLE from rfl,
    if_neg (by decide : ¬ (InjectionType.SINGLE = InjectionType.TWIN))]
  norm_num

lemma I0_mr : momentumRatio I0 = Real.sqrt (143 / 140) * 0.00448 := by
  unfold momentumRatio
  rw [momentumDivisor_eq, I0_vel, I0_Dh, I0_uinj, I0_injD,
    show I0.density = 1000 from rfl,
    show ((7150 : ℝ) / 7) / 1000 = 143 / 140 by norm_num]
  have hpi := Real.pi_ne_zero
  congr 1
  field_simp
  ring

lemma I0_mr_bounds : |momentumRatio I0 - 0.0045| ≤ 0.000045 := by
  rw [I0_mr, abs_le]
  have hlb : (1.0106 : ℝ) ≤ Real.sqrt (143 / 140) :=
    real_le_sqrt _ _ (by norm_num) (by norm_num)
  have hub : Real.sqrt (143 / 140) ≤ 1.0107 :=
    real_sqrt_le _ _ (by norm_num) (by norm_num)
  constructor <;> nlinarith

lemma I0_regime : momentumRegimeOf (momentumRatio I0) = MomentumRegime.Low := by
  unfold momentumRegimeOf
  rw [if_pos]
  have hub : Real.sqrt (143 / 140) ≤ 1.0107 :=
    real_sqrt_le _ _ (by norm_num) (by norm_num)
  rw [I0_mr]
  nlinarith

lemma I0_injV_bounds : |injVisc I0 - 0.00114| ≤ 0.0000114 := by
  rw [I0_injV, abs_le]
  have hX_lb : (-6.7789 : ℝ) ≤ (10 * Real.log 0.015 + 200 * Real.log 0.001) / 210 := by
    rw [le_div_iff₀ (by norm_num : (0:ℝ) < 210)]
    linarith [log0015_lb, log0001_lb]
  have hX_ub : (10 * Real.log 0.015 + 200 * Real.log 0.001) / 210 ≤ -6.7787 := by
    rw [div_le_iff₀ (by norm_num : (0:ℝ) < 210)]
    linarith [log0015_ub, log0001_ub]
  constructor
  · have h1 : Real.exp (-6.7789 : ℝ) ≤
        Real.exp ((10 * Real.log 0.015 + 200 * Real.log 0.001) / 210) :=
      Real.exp_le_exp.mpr hX_lb
    have h2 : (0.0011286 : ℝ) ≤ Real.exp (-6.7789 : ℝ) := by
      rw [show (-6.7789 : ℝ) = -(6.7789 : ℝ) by norm_num, Real.exp_neg]
      calc (0.0011286 : ℝ) ≤ (886 : ℝ)⁻¹ := by norm_num
        _ ≤ (Real.exp (6.7789 : ℝ))⁻¹ := inv_anti₀ (Real.exp_pos _) e67789_ub
    linarith
  · have h1 : Real.exp ((10 * Real.log 0.015 + 200 * Real.log 0.001) / 210) ≤
        Real.exp (-6.7787 : ℝ) :=
      Real.exp_le_exp.mpr hX_ub
    have h2 : Real.exp (-6.7787 : ℝ) ≤ 0.0011514 := by
      rw [show (-6.7787 : ℝ) = -(6.7787 : ℝ) by norm_num, Real.exp_neg]
      calc (Real.exp (6.7787 : ℝ))⁻¹ ≤ (869 : ℝ)⁻¹ :=
            inv_anti₀ (by norm_num) e67787_lb
        _ ≤ 0.0011514 := by norm_num
    linarith

/-- Witness for C10 at the oracle that rate-limits on every attempt. -/
theorem C10_retry_policy_witness :
    getAIRecommendations (fun _ => Except.error ⟨true, false⟩) =
      "Audit generation failed." ∧
    extractGuideData (fun _ => Except.error ⟨true, false⟩) =
      "Extraction failed." := by
  have h := (C10_retry_policy (fun _ => Except.error ⟨true, false⟩)).2.2.2.2
  have htr : (callWithRetry (fun _ : ℕ => Except.error (α := String) ⟨true, false⟩)
      3).outcome = Except.error ⟨true, false⟩ := rfl
  exact h ⟨true, false⟩ htr

/-- C1: the end-to-end scenario — at the record `I0` (PIPE, CIRCULAR, NONE,
1500 m³/h, 0.8 m, …) the engine returns hydraulic diameter exactly 0.8 m and,
within 1 % of the quoted figures, area ≈ 0.50265 m², velocity ≈ 0.8291 m/s,
Re ≈ 663256, blended density ≈ 1021.4 kg/m³, blended viscosity ≈ 0.00114 Pa·s,
headloss ≈ 0.00876 m ≈ 0.0859 kPa, mixing distance ≈ 32.6 m, mixing time
≈ 39.3 s and momentum ratio ≈ 0.0045; the CoV clamps to exactly 1, both
compliance flags are false, and the momentum regime is `Low`. -/
theorem C1_end_to_end :
    (calculateMixing I0).hydraulicDiameter = 0.8 ∧
    |(calculateMixing I0).wettedArea - 0.50265| ≤ 0.0050265 ∧
    |(calculateMixing I0).velocity - 0.8291| ≤ 0.008291 ∧
    |(calculateMixing I0).reynoldsNumber - 663256| ≤ 6632.56 ∧
    |(calculateMixing I0).injectedDensity - 1021.4| ≤ 10.214 ∧
    |(calculateMixing I0).injectedViscosity - 0.00114| ≤ 0.0000114 ∧
    (calculateMixing I0).mixerCoV = 1 ∧
    |(calculateMixing I0).headlossMeters - 0.00876| ≤ 0.0000876 ∧
    |(calculateMixing I0).headloss - 0.0859| ≤ 0.000859 ∧
    |(calculateMixing I0).mixingDistanceNeeded - 32.6| ≤ 0.326 ∧
    |(calculateMixing I0).mixingTimeNeeded - 39.3| ≤ 0.393 ∧
    (calculateMixing I0).isCompliant = false ∧
    (calculateMixing I0).isTimeCompliant = false ∧
    |(calculateMixing I0).momentumRatio - 0.0045| ≤ 0.000045 ∧
    (calculateMixing I0).momentumRegime = MomentumRegime.Low := by
  refine ⟨I0_Dh, ?_, ?_, ?_, ?_, I0_injV_bounds, I0_cov, I0_hl_bounds,
    I0_hk_bounds, ?_, ?_, ?_, ?_, I0_mr_bounds, I0_regime⟩
  · show |area I0 - 0.50265| ≤ 0.0050265
    rw [I0_area, abs_le]
    constructor <;> nlinarith [Real.pi_gt_d6, Real.pi_lt_d6]
  · show |velocity I0 - 0.8291| ≤ 0.008291
    rw [abs_le]
    constructor <;> nlinarith [I0_vel_lb, I0_vel_ub]
  · show |Re I0 - 663256| ≤ 6632.56
    rw [I0_Re, abs_le]
    have h3 : (1000 : ℝ) * velocity I0 * 0.8 / 0.001 = velocity I0 * 800000 := by
      ring
    rw [h3]
    constructor <;> nlinarith [I0_vel_lb, I0_vel_ub]
  · show |injDensity I0 - 1021.4| ≤ 10.214
    rw [I0_injD, abs_le]
    norm_num
  · show |mixingDistanceNeeded I0 - 32.6| ≤ 0.326
    rw [abs_le]
    constructor <;> linarith [I0_dist_lb, I0_dist_ub]
  · show |mixingDistanceNeeded I0 / mixingTimeDivisor I0 - 39.3| ≤ 0.393
    rw [show mixingTimeDivisor I0 = velocity I0 from rfl, abs_le]
    constructor <;> linarith [I0_time_lb, I0_time_ub]
  · show decide (mixerCoV I0 ≤ tCoV I0) = false
    exact decide_eq_false I0_not_compliant
  · show decide (mixingDistanceNeeded I0 / velocity I0 ≤ I0.targetMixingTime) = false
    apply decide_eq_false
    rw [show I0.targetMixingTime = 10 from rfl]
    intro hc
    linarith [I0_time_lb]
